import Mathlib

/-!
# Verification of the DeepWiki wiki-generation orchestrator

Shallow embedding of the `useWiki` hook (the Wiki Generation Orchestrator),
its collaborator calls through `WikiService`, and the excluded-path parsing in
the `/api/wiki/structure` route.

Modelling conventions:
* React state (`useState`) and refs (`useRef`) are collected in one record
  `HookState`; `setX(v)` is a record update, matching the committed state the
  hook's closures observe between `await` suspension points.
* The external collaborators (cache gateway, structure generation, per-page
  generation) are an oracle `Env` fixed for one cycle; each outward call is
  recorded as a `Call` event in an emitted trace, in issue order.  The
  completion of an awaited page generation is recorded as `Call.pageDone`, so
  the trace shows the sequential issue/complete interleaving of the code's
  `await`-per-page loop.
* JavaScript objects keyed by page id (`generatedPages`), the `Map` used as
  the in-flight guard (`activeContentRequests`) and the `Set` of pages in
  progress are association lists / lists of ids; JS `Map.set`, `Map.delete`,
  `Set.add`, `Set.delete` and object-spread update are `mapSet`, `mapDelete`
  and `setContent`.
* The `useEffect` on `[isLoading, error, wikiStructure, generatedPages]`
  (source lines 300-303) re-runs `saveToCache` after the final commit of a
  load cycle; `loadCycle`/`refreshCycle` append that firing.  Firings during
  the cycle observe `isLoading = true` and are no-ops by the guard's first
  conjunct.
-/

namespace DeepWiki

/-- Outcome of one backend page-generation call: the promise either resolves
with content or rejects with an error message. -/
inductive GenOutcome where
  | ok (content : String)
  | fail (msg : String)

/-- A page descriptor from `WikiStructure.pages` (fields the orchestrator
reads: `id`, `title`, `importance`). -/
structure WikiPage where
  id : String
  title : String
  importance : String
deriving DecidableEq

/-- The wiki structure: the ordered page sequence (the only field the
orchestration logic reads). -/
structure WikiStructure where
  pages : List WikiPage
deriving DecidableEq

/-- The hook's committed state: the `useState` variables plus the
`useRef` cells `activeContentRequests` and `cacheLoadedSuccessfully`. -/
structure HookState where
  isLoading : Bool
  isRefreshing : Bool
  error : Option String
  loadingMessage : String
  wikiStructure : Option WikiStructure
  generatedPages : List (String × String)
  currentPageId : String
  pagesInProgress : List String
  activeContentRequests : List String
  cacheLoadedSuccessfully : Bool

/-- The props of `useWiki` that steer the orchestration logic.  The props
that are only forwarded verbatim into collaborator requests (repo identity,
language, provider, model, excluded paths) are absorbed into the `Env`
oracle's answers. -/
structure UseWikiProps where
  isComprehensiveView : Bool

/-- Oracle for the external collaborators during one load cycle:
`WikiService.getWikiCache` (`none` covers both a miss and the
service's silent-failure path), `WikiService.generateWikiStructure`
(`Except.error` is the thrown cause), and
`WikiService.generatePageContent` keyed by page id. -/
structure Env where
  cache : Option (WikiStructure × List (String × String))
  structureResult : Except String WikiStructure
  pageResult : String → GenOutcome

/-- Events of the outward-call trace. `pageGen` is the issue of a backend
page-generation request, `pageDone` the resolution of its awaited promise;
`cacheSave` carries the structure and pages the `saveWikiCache` request
posts, as read by the `saveToCache` closure that issued it. -/
inductive Call where
  | cacheGet
  | structGen
  | pageGen (id : String)
  | pageDone (id : String)
  | cacheSave (ws : Option WikiStructure) (pages : List (String × String))
deriving DecidableEq

def Call.isPageGen : Call → Bool
  | .pageGen _ => true
  | _ => false

def Call.isGeneration : Call → Bool
  | .pageGen _ => true
  | .structGen => true
  | _ => false

def Call.isSave : Call → Bool
  | .cacheSave _ _ => true
  | _ => false

/-- JS `Map.set(id, true)` / `Set.add(id)` observed as key presence. -/
def mapSet (l : List String) (id : String) : List String :=
  if id ∈ l then l else id :: l

/-- JS `Map.delete(id)` / `Set.delete(id)`: the key is removed. -/
def mapDelete (l : List String) (id : String) : List String :=
  l.filter (fun x => x ≠ id)

/-- Object-spread update `{...prev, [id]: v}`: replaces the value at an
existing key in place, appends a new key at the end. -/
def setContent : List (String × String) → String → String → List (String × String)
  | [], id, v => [(id, v)]
  | (k, w) :: rest, id, v =>
      if k = id then (k, v) :: rest else (k, w) :: setContent rest id v

/-- Object property read `generatedPages[id]`. -/
def getContent : List (String × String) → String → Option String
  | [], _ => none
  | (k, v) :: rest, id => if k = id then some v else getContent rest id

/-- Page-selection policy of `generateAllPages` (source line 147):
`isComprehensiveView || page.importance === 'high'`. -/
def selected (args : UseWikiProps) (p : WikiPage) : Bool :=
  args.isComprehensiveView || p.importance == "high"

/-- The content written by the completion handler of one page generation:
the resolved content on success (line 178-181), the human-readable error
sentinel on failure (line 186-192). -/
def outcomeContent : GenOutcome → String
  | .ok c => c
  | .fail msg => "Error generating content: " ++ msg

/-- The guard of `saveToCache` (source lines 206-208); the body then issues
the `WikiService.saveWikiCache` call with the `wikiStructure` and
`generatedPages` the closure reads (lines 210-217); the request's own
failure is caught and only logged.  The argument is the state the invoked
closure observes: the committed state for the save-on-change effect, the
invoking render's captured snapshot for the direct call inside
`loadWiki`. -/
def saveToCache (s : HookState) : List Call :=
  if !s.isLoading && s.error.isNone && s.wikiStructure.isSome
      && !s.generatedPages.isEmpty && !s.cacheLoadedSuccessfully
  then [Call.cacheSave s.wikiStructure s.generatedPages] else []

/-- First phase of `generatePageContent` (source lines 154-165): the
in-flight guard, marking the id as active and in progress, and issuing the
backend call.  If the id is already active the whole invocation is the
early `return` at line 157. -/
def startPageContent (s : HookState) (page : WikiPage) : HookState × List Call :=
  if page.id ∈ s.activeContentRequests then (s, [])
  else
    ({ s with
        activeContentRequests := mapSet s.activeContentRequests page.id,
        pagesInProgress := mapSet s.pagesInProgress page.id,
        loadingMessage := "Generating content for \"" ++ page.title ++ "\"..." },
      [Call.pageGen page.id])

/-- Completion handler of `generatePageContent` (source lines 177-201): the
content (or error sentinel) is written into `generatedPages`, then the
`finally` block removes the id from the in-flight map and the progress
set.  Note the written value depends only on the captured `page` and the
promise outcome — there is no epoch tag and no staleness check. -/
def finishPageContent (s : HookState) (page : WikiPage) (o : GenOutcome) : HookState :=
  { s with
      generatedPages := setContent s.generatedPages page.id (outcomeContent o),
      activeContentRequests := mapDelete s.activeContentRequests page.id,
      pagesInProgress := mapDelete s.pagesInProgress page.id }

/-- `generatePageContent` run to completion without interleaving (the
sequential `await` path of `generateAllPages`): guard, issue, await,
apply outcome, `finally`. -/
def generatePageContent (env : Env) (s : HookState) (page : WikiPage) :
    HookState × List Call :=
  if page.id ∈ s.activeContentRequests then (s, [])
  else
    let s1 : HookState :=
      { s with
          activeContentRequests := mapSet s.activeContentRequests page.id,
          pagesInProgress := mapSet s.pagesInProgress page.id,
          loadingMessage := "Generating content for \"" ++ page.title ++ "\"..." }
    (finishPageContent s1 page (env.pageResult page.id),
      [Call.pageGen page.id, Call.pageDone page.id])

/-- Loop body of `generateAllPages` (source lines 146-150). -/
def genStep (args : UseWikiProps) (env : Env)
    (acc : HookState × List Call) (p : WikiPage) : HookState × List Call :=
  if selected args p then
    ((generatePageContent env acc.1 p).1,
      acc.2 ++ (generatePageContent env acc.1 p).2)
  else acc

/-- `generateAllPages` (source lines 135-151): initialize every page's
content to the `'Loading...'` placeholder, then sequentially generate the
selected pages in structure order. -/
def generateAllPages (args : UseWikiProps) (env : Env)
    (ws : WikiStructure) (s : HookState) : HookState × List Call :=
  let s0 : HookState :=
    { s with generatedPages := ws.pages.map (fun p => (p.id, "Loading...")) }
  ws.pages.foldl (genStep args env) (s0, [])

/-- `loadWiki` (source lines 72-132) run to completion without
interleaving.  The trace records the cache read, the structure generation,
the per-page calls, and the direct `saveToCache()` at line 124.  That
direct call runs the `saveToCache` closure of the render that invoked
`loadWiki`, so its guard and payload read the invoking render's captured
`isLoading`, `error`, `wikiStructure` and `generatedPages` — the state
`s0` at invocation — not the values committed during the cycle; the
`cacheLoadedSuccessfully` ref is read live, and the generation path never
writes it, so it too still holds `s0`'s value.  On a mount cycle the
captured `isLoading` is `true` and the call is a no-op, but on a cycle
invoked from a committed `Ready` state the captured guard can pass and
save the captured (pre-cycle) structure and pages. -/
def loadWiki (args : UseWikiProps) (env : Env) (s0 : HookState) :
    HookState × List Call :=
  let s := { s0 with
      isLoading := true, error := none,
      loadingMessage := "Initializing wiki generation..." }
  match env.cache with
  | some cached =>
    let s := { s with
        wikiStructure := some cached.1, generatedPages := cached.2 }
    let s :=
      match cached.1.pages with
      | [] => s
      | p :: _ =>
          if s.currentPageId = "" then { s with currentPageId := p.id } else s
    ({ s with cacheLoadedSuccessfully := true, isLoading := false },
      [Call.cacheGet])
  | none =>
    match env.structureResult with
    | .error cause =>
        ({ s with error := some cause, isLoading := false },
          [Call.cacheGet, Call.structGen])
    | .ok ws =>
        let s := { s with wikiStructure := some ws }
        let s :=
          match ws.pages with
          | [] => s
          | p :: _ => { s with currentPageId := p.id }
        let r := generateAllPages args env ws s
        let saveCalls := saveToCache s0
        ({ r.1 with isLoading := false },
          [Call.cacheGet, Call.structGen] ++ r.2 ++ saveCalls)

/-- One full load cycle: `loadWiki` plus the firing of the
save-on-change `useEffect` (source lines 300-303) after the final commit. -/
def loadCycle (args : UseWikiProps) (env : Env) (s : HookState) :
    HookState × List Call :=
  ((loadWiki args env s).1,
    (loadWiki args env s).2 ++ saveToCache (loadWiki args env s).1)

/-- `refreshWiki` (source lines 227-236): set the refreshing flag, clear
the cache-sourced flag, re-run `loadWiki`. -/
def refreshWiki (args : UseWikiProps) (env : Env) (s : HookState) :
    HookState × List Call :=
  ({ (loadWiki args env
        { s with isRefreshing := true, cacheLoadedSuccessfully := false }).1
      with isRefreshing := false },
    (loadWiki args env
        { s with isRefreshing := true, cacheLoadedSuccessfully := false }).2)

/-- A refresh cycle including the trailing save-effect firing. -/
def refreshCycle (args : UseWikiProps) (env : Env) (s : HookState) :
    HookState × List Call :=
  ((refreshWiki args env s).1,
    (refreshWiki args env s).2 ++ saveToCache (refreshWiki args env s).1)

/-- The hook's initial state (source lines 48-61). -/
def initialState : HookState :=
  { isLoading := true
    isRefreshing := false
    error := none
    loadingMessage := "Initializing wiki generation..."
    wikiStructure := none
    generatedPages := []
    currentPageId := ""
    pagesInProgress := []
    activeContentRequests := []
    cacheLoadedSuccessfully := false }

/-! ## Basic lemmas about the id-keyed containers -/

theorem not_mem_mapDelete (l : List String) (id : String) :
    id ∉ mapDelete l id := by
  simp [mapDelete]

theorem mapDelete_mapSet_self (l : List String) (id : String) (h : id ∉ l) :
    mapDelete (mapSet l id) id = l := by
  unfold mapSet mapDelete
  rw [if_neg h]
  rw [List.filter_cons_of_neg (by simp)]
  exact List.filter_eq_self.mpr fun x hx => by
    simp only [ne_eq, decide_eq_true_eq]
    exact fun he => h (he ▸ hx)

theorem getContent_setContent (m : List (String × String)) (id v : String) :
    getContent (setContent m id v) id = some v := by
  induction m with
  | nil => simp [setContent, getContent]
  | cons a rest ih =>
      by_cases h : a.1 = id
      · simp [setContent, getContent, h]
      · simp only [setContent, getContent, h, if_false, ite_false]
        simpa [getContent, h] using ih

theorem setContent_append_notmem (done m : List (String × String))
    (id v : String) (h : id ∉ done.map Prod.fst) :
    setContent (done ++ m) id v = done ++ setContent m id v := by
  induction done with
  | nil => rfl
  | cons a rest ih =>
      obtain ⟨k, w⟩ := a
      simp only [List.map_cons, List.mem_cons] at h
      push_neg at h
      have hne : ¬ (k = id) := fun he => h.1 he.symm
      show setContent ((k, w) :: (rest ++ m)) id v
          = (k, w) :: (rest ++ setContent m id v)
      rw [setContent, if_neg hne, ih h.2]

theorem getContent_map_nodup (l : List WikiPage) (f : WikiPage → String)
    (p : WikiPage) (hp : p ∈ l) (hnd : (l.map WikiPage.id).Nodup) :
    getContent (l.map (fun q => (q.id, f q))) p.id = some (f p) := by
  induction l with
  | nil => cases hp
  | cons a rest ih =>
      simp only [List.map_cons, List.nodup_cons] at hnd
      rcases List.mem_cons.mp hp with rfl | hmem
      · simp [getContent]
      · have hne : a.id ≠ p.id := fun he =>
          hnd.1 (he ▸ List.mem_map_of_mem WikiPage.id hmem)
        simp only [List.map_cons, getContent, hne, if_false, ite_false]
        exact ih hmem hnd.2

/-! ## Shape of one `generatePageContent` run -/

theorem generatePageContent_active (env : Env) (s : HookState) (p : WikiPage)
    (h : p.id ∈ s.activeContentRequests) :
    generatePageContent env s p = (s, []) := by
  unfold generatePageContent
  rw [if_pos h]

theorem generatePageContent_notActive (env : Env) (s : HookState)
    (p : WikiPage) (h : p.id ∉ s.activeContentRequests) :
    generatePageContent env s p
      = ({ s with
            generatedPages :=
              setContent s.generatedPages p.id
                (outcomeContent (env.pageResult p.id)),
            activeContentRequests :=
              mapDelete (mapSet s.activeContentRequests p.id) p.id,
            pagesInProgress := mapDelete (mapSet s.pagesInProgress p.id) p.id,
            loadingMessage :=
              "Generating content for \"" ++ p.title ++ "\"..." },
          [Call.pageGen p.id, Call.pageDone p.id]) := by
  unfold generatePageContent finishPageContent
  rw [if_neg h]

/-- `generatePageContent` leaves the load/error/selection/structure state
and the cache-sourced flag untouched. -/
theorem generatePageContent_fields (env : Env) (s : HookState) (p : WikiPage) :
    (generatePageContent env s p).1.isLoading = s.isLoading
      ∧ (generatePageContent env s p).1.error = s.error
      ∧ (generatePageContent env s p).1.cacheLoadedSuccessfully
          = s.cacheLoadedSuccessfully
      ∧ (generatePageContent env s p).1.currentPageId = s.currentPageId
      ∧ (generatePageContent env s p).1.wikiStructure = s.wikiStructure := by
  by_cases h : p.id ∈ s.activeContentRequests
  · rw [generatePageContent_active env s p h]
    exact ⟨rfl, rfl, rfl, rfl, rfl⟩
  · rw [generatePageContent_notActive env s p h]
    exact ⟨rfl, rfl, rfl, rfl, rfl⟩

theorem genStep_fields (args : UseWikiProps) (env : Env)
    (acc : HookState × List Call) (p : WikiPage) :
    (genStep args env acc p).1.isLoading = acc.1.isLoading
      ∧ (genStep args env acc p).1.error = acc.1.error
      ∧ (genStep args env acc p).1.cacheLoadedSuccessfully
          = acc.1.cacheLoadedSuccessfully
      ∧ (genStep args env acc p).1.currentPageId = acc.1.currentPageId
      ∧ (genStep args env acc p).1.wikiStructure = acc.1.wikiStructure := by
  unfold genStep
  by_cases h : selected args p
  · rw [if_pos h]
    exact generatePageContent_fields env acc.1 p
  · rw [if_neg h]
    exact ⟨rfl, rfl, rfl, rfl, rfl⟩

theorem foldl_genStep_fields (args : UseWikiProps) (env : Env)
    (l : List WikiPage) :
    ∀ acc : HookState × List Call,
    (l.foldl (genStep args env) acc).1.isLoading = acc.1.isLoading
      ∧ (l.foldl (genStep args env) acc).1.error = acc.1.error
      ∧ (l.foldl (genStep args env) acc).1.cacheLoadedSuccessfully
          = acc.1.cacheLoadedSuccessfully
      ∧ (l.foldl (genStep args env) acc).1.currentPageId = acc.1.currentPageId
      ∧ (l.foldl (genStep args env) acc).1.wikiStructure
          = acc.1.wikiStructure := by
  induction l with
  | nil => intro acc; exact ⟨rfl, rfl, rfl, rfl, rfl⟩
  | cons p rest ih =>
      intro acc
      have h1 := genStep_fields args env acc p
      have h2 := ih (genStep args env acc p)
      refine ⟨?_, ?_, ?_, ?_, ?_⟩ <;>
        simp only [List.foldl_cons]
      · exact h2.1.trans h1.1
      · exact h2.2.1.trans h1.2.1
      · exact h2.2.2.1.trans h1.2.2.1
      · exact h2.2.2.2.1.trans h1.2.2.2.1
      · exact h2.2.2.2.2.trans h1.2.2.2.2

theorem generateAllPages_fields (args : UseWikiProps) (env : Env)
    (ws : WikiStructure) (s : HookState) :
    (generateAllPages args env ws s).1.isLoading = s.isLoading
      ∧ (generateAllPages args env ws s).1.error = s.error
      ∧ (generateAllPages args env ws s).1.cacheLoadedSuccessfully
          = s.cacheLoadedSuccessfully
      ∧ (generateAllPages args env ws s).1.currentPageId = s.currentPageId
      ∧ (generateAllPages args env ws s).1.wikiStructure
          = s.wikiStructure := by
  unfold generateAllPages
  exact foldl_genStep_fields args env ws.pages _

/-! ## The trace and content map of one sequential generation pass -/

/-- The expected call trace of a sequential generation pass: for each page,
the backend call is issued and completes before the next page's call is
issued. -/
def pairTrace : List WikiPage → List Call
  | [] => []
  | p :: rest => Call.pageGen p.id :: Call.pageDone p.id :: pairTrace rest

theorem pageGen_mem_pairTrace (l : List WikiPage) (p : WikiPage)
    (hp : p ∈ l) : Call.pageGen p.id ∈ pairTrace l := by
  induction l with
  | nil => cases hp
  | cons a rest ih =>
      rcases List.mem_cons.mp hp with rfl | hmem
      · simp [pairTrace]
      · simp [pairTrace, ih hmem]

theorem countP_isSave_pairTrace (l : List WikiPage) :
    (pairTrace l).countP Call.isSave = 0 := by
  induction l with
  | nil => rfl
  | cons a rest ih => simp [pairTrace, List.countP_cons, ih, Call.isSave]

/-- Starting from an empty in-flight map, a sequential generation pass over
`l` issues exactly the calls for the selected pages, in list order, each
completing before the next is issued; and the in-flight map ends empty. -/
theorem foldl_genStep_trace (args : UseWikiProps) (env : Env)
    (l : List WikiPage) :
    ∀ (s : HookState) (calls : List Call),
      s.activeContentRequests = [] →
      (l.foldl (genStep args env) (s, calls)).2
          = calls ++ pairTrace (l.filter (selected args))
        ∧ (l.foldl (genStep args env) (s, calls)).1.activeContentRequests
            = [] := by
  induction l with
  | nil =>
      intro s calls h
      exact ⟨by simp [pairTrace], h⟩
  | cons p rest ih =>
      intro s calls h
      have hnm : p.id ∉ s.activeContentRequests := by rw [h]; simp
      by_cases hsel : selected args p
      · have hstep : genStep args env (s, calls) p
            = ((generatePageContent env s p).1,
                calls ++ [Call.pageGen p.id, Call.pageDone p.id]) := by
          unfold genStep
          rw [if_pos hsel, generatePageContent_notActive env s p hnm]
        have hact : (generatePageContent env s p).1.activeContentRequests
            = [] := by
          rw [generatePageContent_notActive env s p hnm]
          show mapDelete (mapSet s.activeContentRequests p.id) p.id = []
          rw [h]
          exact mapDelete_mapSet_self [] p.id (by simp)
        have := ih (generatePageContent env s p).1
          (calls ++ [Call.pageGen p.id, Call.pageDone p.id]) hact
        refine ⟨?_, ?_⟩
        · rw [List.foldl_cons, hstep, this.1,
            List.filter_cons_of_pos hsel, pairTrace]
          simp
        · rw [List.foldl_cons, hstep]
          exact this.2
      · have hstep : genStep args env (s, calls) p = (s, calls) := by
          unfold genStep
          rw [if_neg hsel]
        have := ih s calls h
        rw [List.foldl_cons, hstep,
          List.filter_cons_of_neg (by simpa using hsel)]
        exact this

/-- Trace of a full `generateAllPages` from a state with an empty in-flight
map. -/
theorem generateAllPages_trace (args : UseWikiProps) (env : Env)
    (ws : WikiStructure) (s : HookState)
    (h : s.activeContentRequests = []) :
    (generateAllPages args env ws s).2
      = pairTrace (ws.pages.filter (selected args)) := by
  unfold generateAllPages
  have := (foldl_genStep_trace args env ws.pages
    { s with generatedPages := ws.pages.map (fun p => (p.id, "Loading...")) }
    [] h).1
  simpa using this

/-- The final content written for a page by one load cycle: the page's own
generation outcome when it is selected, the untouched `'Loading...'`
placeholder otherwise. -/
def finalContent (args : UseWikiProps) (env : Env) (p : WikiPage) : String :=
  if selected args p then outcomeContent (env.pageResult p.id)
  else "Loading..."

/-- Fold invariant for the content map: processed pages hold their final
content, pending pages still hold the placeholder. -/
theorem foldl_genStep_pages (args : UseWikiProps) (env : Env) :
    ∀ (l : List WikiPage) (done : List (String × String)) (s : HookState)
      (calls : List Call),
      s.activeContentRequests = [] →
      s.generatedPages = done ++ l.map (fun p => (p.id, "Loading...")) →
      (l.map WikiPage.id).Nodup →
      (∀ p ∈ l, p.id ∉ done.map Prod.fst) →
      (l.foldl (genStep args env) (s, calls)).1.generatedPages
        = done ++ l.map (fun p => (p.id, finalContent args env p)) := by
  intro l
  induction l with
  | nil =>
      intro done s calls _ hgp _ _
      simpa using hgp
  | cons p rest ih =>
      intro done s calls hact hgp hnd hdone
      simp only [List.map_cons, List.nodup_cons] at hnd
      have hnm : p.id ∉ s.activeContentRequests := by rw [hact]; simp
      have hdp : p.id ∉ done.map Prod.fst := hdone p (List.mem_cons_self p rest)
      have hdone2 : ∀ q ∈ rest, q.id ∉ (done ++ [(p.id, finalContent args env p)]).map Prod.fst := by
        intro q hq
        have hqid : q.id ≠ p.id := fun he =>
          hnd.1 (he ▸ List.mem_map_of_mem WikiPage.id hq)
        simp [hdone q (List.mem_cons_of_mem p hq), hqid]
      by_cases hsel : selected args p
      · have hstep : genStep args env (s, calls) p
            = ((generatePageContent env s p).1,
                calls ++ [Call.pageGen p.id, Call.pageDone p.id]) := by
          unfold genStep
          rw [if_pos hsel, generatePageContent_notActive env s p hnm]
        have hact2 : (generatePageContent env s p).1.activeContentRequests
            = [] := by
          rw [generatePageContent_notActive env s p hnm]
          show mapDelete (mapSet s.activeContentRequests p.id) p.id = []
          rw [hact]
          exact mapDelete_mapSet_self [] p.id (by simp)
        have hgp2 : (generatePageContent env s p).1.generatedPages
            = (done ++ [(p.id, finalContent args env p)])
                ++ rest.map (fun q => (q.id, "Loading...")) := by
          rw [generatePageContent_notActive env s p hnm]
          show setContent s.generatedPages p.id
              (outcomeContent (env.pageResult p.id)) = _
          rw [hgp, List.map_cons,
            setContent_append_notmem done _ _ _ hdp]
          have : setContent
              ((p.id, "Loading...") :: rest.map (fun q => (q.id, "Loading...")))
              p.id (outcomeContent (env.pageResult p.id))
              = (p.id, outcomeContent (env.pageResult p.id))
                  :: rest.map (fun q => (q.id, "Loading...")) := by
            rw [setContent, if_pos rfl]
          rw [this, finalContent, if_pos hsel]
          simp
        rw [List.foldl_cons, hstep,
          ih (done ++ [(p.id, finalContent args env p)])
            (generatePageContent env s p).1 _ hact2 hgp2 hnd.2 hdone2]
        simp
      · have hstep : genStep args env (s, calls) p = (s, calls) := by
          unfold genStep
          rw [if_neg hsel]
        have hgp2 : s.generatedPages
            = (done ++ [(p.id, finalContent args env p)])
                ++ rest.map (fun q => (q.id, "Loading...")) := by
          rw [hgp, List.map_cons, finalContent, if_neg hsel]
          simp
        rw [List.foldl_cons, hstep,
          ih (done ++ [(p.id, finalContent args env p)]) s _ hact hgp2
            hnd.2 hdone2]
        simp

/-- The content map produced by a full `generateAllPages` over a structure
with distinct page ids, from a state with an empty in-flight map. -/
theorem generateAllPages_pages (args : UseWikiProps) (env : Env)
    (ws : WikiStructure) (s : HookState)
    (hact : s.activeContentRequests = [])
    (hnd : (ws.pages.map WikiPage.id).Nodup) :
    (generateAllPages args env ws s).1.generatedPages
      = ws.pages.map (fun p => (p.id, finalContent args env p)) := by
  unfold generateAllPages
  simpa using foldl_genStep_pages args env ws.pages []
    { s with generatedPages := ws.pages.map (fun p => (p.id, "Loading...")) }
    [] hact (by simp) hnd (by simp)

/-! ## Characterizing the branches of `loadWiki` -/

/-- The state from which the generation path of `loadWiki` starts its
`generateAllPages` pass (source lines 73-75, 113, 116-118). -/
def preGenState (ws : WikiStructure) (s : HookState) : HookState :=
  { s with
      isLoading := true, error := none,
      loadingMessage := "Initializing wiki generation...",
      wikiStructure := some ws,
      currentPageId :=
        match ws.pages with
        | [] => s.currentPageId
        | p :: _ => p.id }

theorem loadWiki_cacheHit (args : UseWikiProps) (env : Env) (s : HookState)
    (cached : WikiStructure × List (String × String))
    (hc : env.cache = some cached) :
    loadWiki args env s
      = ({ s with
            isLoading := false, error := none,
            loadingMessage := "Initializing wiki generation...",
            wikiStructure := some cached.1,
            generatedPages := cached.2,
            currentPageId :=
              match cached.1.pages with
              | [] => s.currentPageId
              | p :: _ =>
                  if s.currentPageId = "" then p.id else s.currentPageId,
            cacheLoadedSuccessfully := true },
          [Call.cacheGet]) := by
  obtain ⟨c, sr, pr⟩ := env
  obtain ⟨⟨pages⟩, cpages⟩ := cached
  replace hc : c = some
      (⟨⟨pages⟩, cpages⟩ : WikiStructure × List (String × String)) := hc
  subst hc
  cases pages with
  | nil => rfl
  | cons p rest =>
      by_cases hcur : s.currentPageId = ""
      · simp only [loadWiki, if_pos hcur]
      · simp only [loadWiki, if_neg hcur]

theorem loadWiki_structFail (args : UseWikiProps) (env : Env) (s : HookState)
    (cause : String) (hc : env.cache = none)
    (hs : env.structureResult = .error cause) :
    loadWiki args env s
      = ({ s with
            isLoading := false, error := some cause,
            loadingMessage := "Initializing wiki generation..." },
          [Call.cacheGet, Call.structGen]) := by
  obtain ⟨c, sr, pr⟩ := env
  replace hc : c = none := hc
  replace hs : sr = .error cause := hs
  subst hc
  subst hs
  rfl

theorem loadWiki_genPath (args : UseWikiProps) (env : Env) (s : HookState)
    (ws : WikiStructure) (hc : env.cache = none)
    (hs : env.structureResult = .ok ws) :
    loadWiki args env s
      = ({ (generateAllPages args env ws (preGenState ws s)).1 with
            isLoading := false },
          [Call.cacheGet, Call.structGen]
            ++ (generateAllPages args env ws (preGenState ws s)).2
            ++ saveToCache s) := by
  obtain ⟨c, sr, pr⟩ := env
  obtain ⟨pages⟩ := ws
  replace hc : c = none := hc
  replace hs : sr = .ok (⟨pages⟩ : WikiStructure) := hs
  subst hc
  subst hs
  cases pages with
  | nil => rfl
  | cons p rest => rfl

/-! ## Save-call accounting -/

theorem saveToCache_loading (t : HookState) (h : t.isLoading = true) :
    saveToCache t = [] := by
  unfold saveToCache
  rw [h]
  simp

theorem saveToCache_error (t : HookState) (cause : String)
    (h : t.error = some cause) : saveToCache t = [] := by
  unfold saveToCache
  rw [h]
  simp

theorem saveToCache_cacheLoaded (t : HookState)
    (h : t.cacheLoadedSuccessfully = true) : saveToCache t = [] := by
  unfold saveToCache
  rw [h]
  simp

theorem saveToCache_count_le (t : HookState) :
    (saveToCache t).countP Call.isSave ≤ 1 := by
  unfold saveToCache
  split <;> simp [List.countP_cons, Call.isSave]

theorem genStep_countSave (args : UseWikiProps) (env : Env)
    (acc : HookState × List Call) (p : WikiPage) :
    (genStep args env acc p).2.countP Call.isSave
      = acc.2.countP Call.isSave := by
  unfold genStep
  by_cases hsel : selected args p
  · rw [if_pos hsel]
    by_cases h : p.id ∈ acc.1.activeContentRequests
    · rw [generatePageContent_active env acc.1 p h]
      simp
    · rw [generatePageContent_notActive env acc.1 p h]
      simp [List.countP_append, List.countP_cons, Call.isSave]
  · rw [if_neg hsel]

theorem foldl_genStep_countSave (args : UseWikiProps) (env : Env)
    (l : List WikiPage) :
    ∀ acc : HookState × List Call,
    (l.foldl (genStep args env) acc).2.countP Call.isSave
      = acc.2.countP Call.isSave := by
  induction l with
  | nil => intro acc; rfl
  | cons p rest ih =>
      intro acc
      rw [List.foldl_cons, ih (genStep args env acc p),
        genStep_countSave args env acc p]

theorem generateAllPages_countSave (args : UseWikiProps) (env : Env)
    (ws : WikiStructure) (s : HookState) :
    (generateAllPages args env ws s).2.countP Call.isSave = 0 := by
  unfold generateAllPages
  rw [foldl_genStep_countSave args env ws.pages _]
  rfl

/-- Per load cycle: the trailing save-on-change effect saves at most once
and never when the cycle was cache-sourced; the direct line-124 call,
whose guard reads the invoking render's captured state, can add one more
save on a generation cycle — but not when the cycle was invoked with a
captured `isLoading = true` (every mount cycle). -/
theorem loadCycle_save_bound (args : UseWikiProps) (env : Env)
    (s : HookState) :
    (loadCycle args env s).2.countP Call.isSave ≤ 2
      ∧ (env.cache.isSome = true →
          (loadCycle args env s).2.countP Call.isSave = 0)
      ∧ (s.isLoading = true →
          (loadCycle args env s).2.countP Call.isSave ≤ 1) := by
  unfold loadCycle
  cases hc : env.cache with
  | some cached =>
      rw [loadWiki_cacheHit args env s cached hc]
      rw [saveToCache_cacheLoaded _ rfl]
      exact ⟨by simp [List.countP_cons, Call.isSave],
        fun _ => by simp [List.countP_cons, Call.isSave],
        fun _ => by simp [List.countP_cons, Call.isSave]⟩
  | none =>
      cases hs : env.structureResult with
      | error cause =>
          rw [loadWiki_structFail args env s cause hc hs,
            saveToCache_error _ cause rfl]
          exact ⟨by simp [List.countP_cons, Call.isSave],
            fun h => by simp at h,
            fun _ => by simp [List.countP_cons, Call.isSave]⟩
      | ok ws =>
          rw [loadWiki_genPath args env s ws hc hs]
          have hgp := generateAllPages_countSave args env ws (preGenState ws s)
          have h1 : ([Call.cacheGet, Call.structGen]).countP Call.isSave
              = 0 := rfl
          refine ⟨?_, fun h => by simp at h, fun hl => ?_⟩
          · simp only [List.countP_append]
            rw [hgp, h1]
            show ((0 + 0) + (saveToCache s).countP Call.isSave) + _ ≤ 1 + 1
            exact Nat.add_le_add
              (by simpa using saveToCache_count_le s)
              (saveToCache_count_le _)
          · rw [saveToCache_loading s hl]
            simp only [List.countP_append, List.countP_nil]
            rw [hgp, h1]
            simpa using saveToCache_count_le _

/-- A refresh cycle issues the same call trace as a load cycle started from
the state with the refreshing flag set and the cache-sourced flag
cleared. -/
theorem refreshCycle_calls (args : UseWikiProps) (env : Env) (s : HookState) :
    (refreshCycle args env s).2
      = (loadCycle args env
          { s with isRefreshing := true, cacheLoadedSuccessfully := false }).2
      := rfl

/-! ## Excluded-path parsing at the structure-generation boundary

Embedding of the comma-separated branch of the `excluded_dirs` /
`excluded_files` parsing in the quote-aware variant of
`src/app/api/wiki/structure/route.ts` (lines 89-108 of the concatenated
source file): inputs that are not a bracketed JSON array are split by the
regex `,(?=(?:[^"]*"[^"]*")*[^"]*$)` — a comma splits only when it is
followed by an even number of `"` characters — then each token is trimmed,
stripped of one leading and one trailing quote (`/^"|"$/g`), and empty
tokens are dropped. -/

/-- Number of double-quote characters in the remainder of the input; the
regex lookahead `(?:[^"]*"[^"]*")*[^"]*$` matches exactly when this is
even. -/
def countQuotes (l : List Char) : Nat :=
  l.countP (fun c => c == '"')

/-- Quote-aware comma split: the JS `String.split` with the regex above,
accumulating the current token in reverse. -/
def splitQuoteAware : List Char → List Char → List (List Char)
  | [], acc => [acc.reverse]
  | c :: rest, acc =>
      if c = ',' ∧ countQuotes rest % 2 = 0 then
        acc.reverse :: splitQuoteAware rest []
      else
        splitQuoteAware rest (c :: acc)

/-- JS `String.trim` on the whitespace that can occur in these inputs. -/
def isWS (c : Char) : Bool :=
  c == ' ' || c == '\t' || c == '\n' || c == '\r'

def trimChars (l : List Char) : List Char :=
  ((l.dropWhile isWS).reverse.dropWhile isWS).reverse

/-- `.replace(/^"|"$/g, '')`: remove one leading and one trailing
double-quote if present. -/
def stripWrappingQuotes (l : List Char) : List Char :=
  let l1 := match l with
    | '"' :: rest => rest
    | other => other
  match l1.getLast? with
  | some c => if c = '"' then l1.dropLast else l1
  | none => l1

/-- The per-token cleanup `.trim().replace(/^"|"$/g, '')`. -/
def cleanToken (l : List Char) : List Char :=
  stripWrappingQuotes (trimChars l)

/-- The comma-separated branch of the route's excluded-path parsing:
split (quote-aware), clean each token, keep the non-empty ones.  The other
branch — an input that starts with `[` and ends with `]` is handed to
`JSON.parse` — is not taken for comma-separated inputs and is not
modelled. -/
def parseExcludedCommaList (s : String) : List String :=
  (((splitQuoteAware s.data []).map cleanToken).filter
      (fun l => !l.isEmpty)).map List.asString

/-- The full excluded-path parsing of the quote-aware route variant
(lines 90-108): a bracketed input — `startsWith('[') && endsWith(']')`,
i.e. first character `[` and last character `]` — is handed to the
runtime's `JSON.parse`, an external collaborator modelled as the oracle
`jsonParse`, with `none` standing for a thrown parse error, which the
`catch` at lines 104-107 turns into the one-element fallback list; any
other input takes the quote-aware comma-separated branch. -/
def parseExcludedList (jsonParse : String → Option (List String))
    (s : String) : List String :=
  if s.data.head? = some '[' ∧ s.data.getLast? = some ']' then
    match jsonParse s with
    | some arr => arr
    | none => [s]
  else parseExcludedCommaList s

theorem countQuotes_cons_quote (ys : List Char) :
    countQuotes ('"' :: ys) = countQuotes ys + 1 := by
  simp [countQuotes, List.countP_cons]

theorem countQuotes_append (l₁ l₂ : List Char) :
    countQuotes (l₁ ++ l₂) = countQuotes l₁ + countQuotes l₂ := by
  simp [countQuotes, List.countP_append]

theorem countQuotes_eq_zero (l : List Char) (h : '"' ∉ l) :
    countQuotes l = 0 := by
  unfold countQuotes
  rw [List.countP_eq_zero]
  intro a ha
  simp only [beq_iff_eq]
  exact fun he => h (he ▸ ha)

/-- While the scanner is inside a double-quoted segment — quote-free body
`ms`, then the closing quote, then a well-formed remainder `ys` — every
character of the segment, commas included, is accumulated into the
current token: each comma in `ms` sees an odd number of quotes ahead, so
the split regex's lookahead rejects it.  The scan resumes on `ys` with the
whole segment prepended to the pending token and no new token created. -/
theorem splitQuoteAware_quoted (ms : List Char) :
    ∀ (ys acc : List Char), '"' ∉ ms → countQuotes ys % 2 = 0 →
      splitQuoteAware (ms ++ '"' :: ys) acc
        = splitQuoteAware ys ('"' :: (ms.reverse ++ acc)) := by
  induction ms with
  | nil =>
      intro ys acc _ _
      show splitQuoteAware ('"' :: ys) acc = _
      rw [splitQuoteAware,
        if_neg (by intro hand; exact absurd hand.1 (by decide))]
      simp
  | cons m ms' ih =>
      intro ys acc h he
      have h' : '"' ∉ ms' := fun hq => h (List.mem_cons_of_mem m hq)
      have hq0 : countQuotes ms' = 0 := countQuotes_eq_zero ms' h'
      have hcnt : countQuotes (ms' ++ '"' :: ys) % 2 = 1 := by
        rw [countQuotes_append, hq0, countQuotes_cons_quote]
        omega
      show splitQuoteAware (m :: (ms' ++ '"' :: ys)) acc = _
      rw [splitQuoteAware,
        if_neg (by
          intro hand
          rw [hand.2] at hcnt
          exact absurd hcnt (by decide))]
      rw [ih ys (m :: acc) h' he]
      simp [List.reverse_cons, List.append_assoc]

/-! ## Selection-policy filters -/

theorem filter_selected_comprehensive (args : UseWikiProps)
    (h : args.isComprehensiveView = true) (l : List WikiPage) :
    l.filter (selected args) = l := by
  induction l with
  | nil => rfl
  | cons p rest ih =>
      simp [List.filter_cons, selected, h, ih]

theorem filter_selected_restricted (args : UseWikiProps)
    (h : args.isComprehensiveView = false) (l : List WikiPage) :
    l.filter (selected args)
      = l.filter (fun p => p.importance == "high") := by
  induction l with
  | nil => rfl
  | cons p rest ih =>
      by_cases hp : p.importance == "high" <;>
        simp [List.filter_cons, selected, h, hp, ih]

/-! ## Concrete scenario data (shared by witnesses and counterexamples) -/

def pageIntro : WikiPage :=
  { id := "intro", title := "Intro", importance := "high" }

def pageSetup : WikiPage :=
  { id := "setup", title := "Setup", importance := "low" }

/-- The spec's scenario structure: `[{id:"intro", importance:"high"},
{id:"setup", importance:"low"}]`. -/
def structTwo : WikiStructure := { pages := [pageIntro, pageSetup] }

def structOne : WikiStructure := { pages := [pageIntro] }

def argsComprehensive : UseWikiProps := { isComprehensiveView := true }

def argsRestricted : UseWikiProps := { isComprehensiveView := false }

/-- Cache miss; structure generation succeeds; both pages generate. -/
def envGenTwo : Env :=
  { cache := none
    structureResult := .ok structTwo
    pageResult := fun id =>
      if id = "intro" then .ok "Intro content" else .ok "Setup content" }

/-- Warm cache holding the scenario structure and two cached pages. -/
def envWarm : Env :=
  { cache := some (structTwo,
      [("intro", "Cached intro"), ("setup", "Cached setup")])
    structureResult := .error "unused"
    pageResult := fun _ => .ok "unused" }

/-- Cache miss; structure ok; generation for `setup` rejects. -/
def envFailSetup : Env :=
  { cache := none
    structureResult := .ok structTwo
    pageResult := fun id =>
      if id = "intro" then .ok "Intro content" else .fail "backend boom" }

/-- Cache miss and structure generation failure with a cause message. -/
def envStructFail : Env :=
  { cache := none
    structureResult :=
      .error "Failed to generate wiki structure: Service Unavailable"
    pageResult := fun _ => .ok "unused" }

/-- The collaborators as seen by the post-refresh (second) cycle. -/
def envSecondCycle : Env :=
  { cache := none
    structureResult := .ok structOne
    pageResult := fun _ => .ok "Second cycle content" }

/-- A `Ready` state after a completed cycle over `structTwo`. -/
def stateReady : HookState :=
  { initialState with
      isLoading := false
      wikiStructure := some structTwo
      generatedPages := [("intro", "Old intro"), ("setup", "Old setup")]
      currentPageId := "intro" }

/-- A state with a generation for `"intro"` marked in flight. -/
def stateBusy : HookState :=
  { initialState with
      activeContentRequests := ["intro"]
      pagesInProgress := ["intro"] }

/-- The first load cycle interrupted in the middle of `generatePageContent`
for `"intro"`: `loadWiki` has set loading state (lines 73-75), stored the
structure (line 113), selected the first page (lines 116-118),
`generateAllPages` has initialized the placeholders (lines 139-143), and
`startPageContent` has marked `"intro"` in flight and issued its backend
call (lines 156-167), whose promise has not yet resolved. -/
def stateMidGen : HookState :=
  (startPageContent
    { initialState with
        isLoading := true
        wikiStructure := some structOne
        currentPageId := "intro"
        generatedPages := [("intro", "Loading...")] }
    pageIntro).1

/-- A concrete `JSON.parse` oracle answering one bracketed input. -/
def jsonOracle : String → Option (List String) := fun s =>
  if s = "[\"a\", \"b\"]" then some ["a", "b"] else none

/-! ## Claim C1 — epoch discard of stale asynchronous results -/

/-- Claim C1, counterexample.  The claim says every asynchronous
page-content result carries the epoch of its load cycle and is discarded
when that epoch is stale, so a result from a cycle started before a
Refresh never mutates post-Refresh state.  The code has no epoch at all:
in the reachable interleaving where a Refresh (`handleModelSelectionApply`
calls `refreshWiki` from the model-selection modal, available while a load
is running) arrives at `stateMidGen` — the first cycle's generation for
`"intro"` still in flight — the refresh cycle (i) leaves `"intro"` at its
placeholder and issues no generation call for it (the stale in-flight flag
makes the new cycle's `generatePageContent` a no-op), and (ii) when the
first cycle's promise then resolves, its completion handler overwrites the
post-Refresh content map with the pre-Refresh result. -/
theorem C1_counterexample :
    getContent
        (refreshWiki argsComprehensive envSecondCycle stateMidGen).1.generatedPages
        "intro" = some "Loading..."
      ∧ (refreshWiki argsComprehensive envSecondCycle stateMidGen).2.filter
          Call.isPageGen = []
      ∧ getContent
          (finishPageContent
            (refreshWiki argsComprehensive envSecondCycle stateMidGen).1
            pageIntro (GenOutcome.ok "First cycle content")).generatedPages
          "intro" = some "First cycle content" := by
  decide

/-- Claim C1, amended: asynchronous page-content results carry no epoch
tag and are applied to the shared content map unconditionally by the
completion handler of `generatePageContent` — in particular a completion
issued before a Refresh that lands after it writes its outcome (content or
error sentinel) into the post-Refresh map, so the map can mix data from
two load cycles.  Stated generally: after any `refreshWiki`, a late
completion for any page overwrites the current map with the stale
outcome. -/
theorem C1_amended_no_epoch_discard (args : UseWikiProps) (env : Env)
    (s : HookState) (page : WikiPage) (o : GenOutcome) :
    getContent
        (finishPageContent (refreshWiki args env s).1 page o).generatedPages
        page.id
      = some (outcomeContent o) := by
  show getContent
      (setContent (refreshWiki args env s).1.generatedPages page.id
        (outcomeContent o)) page.id = some (outcomeContent o)
  exact getContent_setContent _ _ _

/-! ## Claim C2 — Refresh must re-run generation -/

/-- Claim C2, counterexample.  From the `Ready` state with a warm cache, a
Refresh issues no structure-generation and no page-generation call: it
re-serves the cached structure and pages verbatim, because `refreshWiki`
only clears the cache-sourced flag and `loadWiki` always consults the
cache first (source lines 77-98, 227-236). -/
theorem C2_counterexample :
    stateReady.isLoading = false
      ∧ stateReady.error = none
      ∧ (refreshWiki argsComprehensive envWarm stateReady).2.filter
          Call.isGeneration = []
      ∧ (refreshWiki argsComprehensive envWarm stateReady).1.generatedPages
          = [("intro", "Cached intro"), ("setup", "Cached setup")]
      ∧ (refreshWiki argsComprehensive envWarm stateReady).1.error = none
      ∧ (refreshWiki argsComprehensive envWarm stateReady).1.isLoading
          = false := by
  decide

/-- Claim C2, amended: a Refresh clears the cache-sourced flag and
re-enters the load cycle, but the cache read is not bypassed or
revalidated: whenever the Cache Gateway returns a record, the refresh
re-serves that record's pages and issues no generation call at all;
generation is re-run only when the cache misses. -/
theorem C2_amended_refresh_reloads_cache (args : UseWikiProps) (env : Env)
    (s : HookState) :
    (∀ cached, env.cache = some cached →
        (refreshWiki args env s).2.filter Call.isGeneration = []
          ∧ (refreshWiki args env s).1.generatedPages = cached.2)
      ∧ (env.cache = none →
          Call.structGen ∈ (refreshWiki args env s).2) := by
  constructor
  · intro cached hc
    unfold refreshWiki
    rw [loadWiki_cacheHit args env _ cached hc]
    exact ⟨rfl, rfl⟩
  · intro hc
    unfold refreshWiki
    cases hs : env.structureResult with
    | error cause =>
        rw [loadWiki_structFail args env _ cause hc hs]
        simp
    | ok ws =>
        rw [loadWiki_genPath args env _ ws hc hs]
        simp

/-- Witness for the amended C2 theorem at concrete inputs: a warm-cache
refresh re-serves the cache with no generation calls, and a cache-miss
refresh re-runs structure generation. -/
theorem C2_witness :
    envWarm.cache = some (structTwo,
        [("intro", "Cached intro"), ("setup", "Cached setup")])
      ∧ (refreshWiki argsComprehensive envWarm stateReady).2.filter
          Call.isGeneration = []
      ∧ (refreshWiki argsComprehensive envWarm stateReady).1.generatedPages
          = [("intro", "Cached intro"), ("setup", "Cached setup")]
      ∧ envGenTwo.cache = none
      ∧ Call.structGen ∈ (refreshWiki argsComprehensive envGenTwo stateReady).2 :=
  ⟨rfl,
    ((C2_amended_refresh_reloads_cache argsComprehensive envWarm stateReady).1
      _ rfl).1,
    ((C2_amended_refresh_reloads_cache argsComprehensive envWarm stateReady).1
      _ rfl).2,
    rfl,
    (C2_amended_refresh_reloads_cache argsComprehensive envGenTwo stateReady).2
      rfl⟩

/-! ## Claim C3 — save at most once, never when cache-sourced -/

/-- Claim C3, counterexample.  The claim says the Cache Gateway `save` is
invoked at most once per load cycle.  The direct `saveToCache()` at
source line 124 runs the invoking render's closure: a Refresh clicked in
the committed `Ready` state invokes closures whose captured `isLoading` is
`false`, `error` is `null`, and whose captured structure and pages are the
pre-refresh ones, while `refreshWiki` has just cleared the
`cacheLoadedSuccessfully` ref — so on a cache miss that call's guard
passes and posts the captured (stale, pre-refresh) structure and pages;
the save-on-change effect then saves the freshly generated pages after
the final commit.  Two saves in one load cycle, the first of stale
data. -/
theorem C3_counterexample :
    stateReady.isLoading = false
      ∧ stateReady.error = none
      ∧ envGenTwo.cache = none
      ∧ (refreshCycle argsComprehensive envGenTwo stateReady).2.countP
          Call.isSave = 2
      ∧ (refreshCycle argsComprehensive envGenTwo stateReady).2.filter
          Call.isSave
        = [Call.cacheSave (some structTwo)
            [("intro", "Old intro"), ("setup", "Old setup")],
           Call.cacheSave (some structTwo)
            [("intro", "Intro content"), ("setup", "Setup content")]] := by
  decide

/-- Claim C3, amended: per load cycle the save-on-change effect saves at
most once, and a cache-sourced cycle issues no save at all — but the
direct `saveToCache()` at line 124 evaluates its guard against the
invoking render's captured state, so a generation cycle invoked from a
committed `Ready` state can issue one additional save (of the captured
pre-cycle data), for at most two saves per cycle; a cycle invoked with
captured `isLoading = true` (every mount cycle) still saves at most
once. -/
theorem C3_amended_save_bound (args : UseWikiProps) (env : Env)
    (s : HookState) :
    ((loadCycle args env s).2.countP Call.isSave ≤ 2
        ∧ (env.cache.isSome = true →
            (loadCycle args env s).2.countP Call.isSave = 0)
        ∧ (s.isLoading = true →
            (loadCycle args env s).2.countP Call.isSave ≤ 1))
      ∧ ((refreshCycle args env s).2.countP Call.isSave ≤ 2
        ∧ (env.cache.isSome = true →
            (refreshCycle args env s).2.countP Call.isSave = 0)
        ∧ (s.isLoading = true →
            (refreshCycle args env s).2.countP Call.isSave ≤ 1)) := by
  refine ⟨loadCycle_save_bound args env s, ?_⟩
  rw [refreshCycle_calls args env s]
  have h := loadCycle_save_bound args env
    { s with isRefreshing := true, cacheLoadedSuccessfully := false }
  exact ⟨h.1, h.2.1, fun hl => h.2.2 hl⟩

/-- Witness for the amended C3 theorem at concrete inputs: cache-sourced
load and refresh cycles issue no save, and a mount cycle (captured
`isLoading = true`) saves at most once. -/
theorem C3_witness :
    envWarm.cache.isSome = true
      ∧ (loadCycle argsComprehensive envWarm initialState).2.countP
          Call.isSave = 0
      ∧ (refreshCycle argsComprehensive envWarm stateReady).2.countP
          Call.isSave = 0
      ∧ initialState.isLoading = true
      ∧ (loadCycle argsComprehensive envGenTwo initialState).2.countP
          Call.isSave ≤ 1 :=
  ⟨rfl,
    (C3_amended_save_bound argsComprehensive envWarm initialState).1.2.1 rfl,
    (C3_amended_save_bound argsComprehensive envWarm stateReady).2.2.1 rfl,
    rfl,
    (C3_amended_save_bound argsComprehensive envGenTwo initialState).1.2.2
      rfl⟩

/-! ## Claim C4 — generation call count and order -/

/-- Claim C4: from a cycle-fresh state (empty in-flight map), a structure
with N pages yields under comprehensive view exactly the N generation
calls, in the structure's declared order, each completing
(`Call.pageDone`) before the next is issued; under the restricted view,
exactly the calls for the high-importance pages, in the same order. -/
theorem C4_generation_schedule (args : UseWikiProps) (env : Env)
    (ws : WikiStructure) (s : HookState)
    (hact : s.activeContentRequests = []) :
    (args.isComprehensiveView = true →
        (generateAllPages args env ws s).2 = pairTrace ws.pages)
      ∧ (args.isComprehensiveView = false →
          (generateAllPages args env ws s).2
            = pairTrace (ws.pages.filter (fun p => p.importance == "high"))) := by
  constructor
  · intro h
    rw [generateAllPages_trace args env ws s hact,
      filter_selected_comprehensive args h ws.pages]
  · intro h
    rw [generateAllPages_trace args env ws s hact,
      filter_selected_restricted args h ws.pages]

/-- Witness for C4 at concrete inputs: two pages, comprehensive view gives
both calls in order; restricted view gives only the high-importance
page. -/
theorem C4_witness :
    initialState.activeContentRequests = []
      ∧ (generateAllPages argsComprehensive envGenTwo structTwo initialState).2
          = pairTrace structTwo.pages
      ∧ (generateAllPages argsRestricted envGenTwo structTwo initialState).2
          = pairTrace [pageIntro] :=
  ⟨rfl,
    (C4_generation_schedule argsComprehensive envGenTwo structTwo
      initialState rfl).1 rfl,
    ((C4_generation_schedule argsRestricted envGenTwo structTwo
      initialState rfl).2 rfl).trans (by decide)⟩

/-! ## Claim C5 — idempotent re-entry and in-flight cleanup -/

/-- Claim C5: invoking `generatePageContent` for a page id that is already
in flight is a no-op (the state is unchanged and no backend call is
issued), and the completion handler — for success and failure alike —
removes the id from the in-flight map and the progress set. -/
theorem C5_inflight_guard (env : Env) (s : HookState) (page : WikiPage)
    (o : GenOutcome) :
    (page.id ∈ s.activeContentRequests →
        generatePageContent env s page = (s, [])
          ∧ startPageContent s page = (s, []))
      ∧ page.id ∉ (finishPageContent s page o).activeContentRequests
      ∧ page.id ∉ (finishPageContent s page o).pagesInProgress := by
  refine ⟨fun h => ⟨generatePageContent_active env s page h, ?_⟩, ?_, ?_⟩
  · unfold startPageContent
    rw [if_pos h]
  · show page.id ∉ mapDelete s.activeContentRequests page.id
    exact not_mem_mapDelete _ _
  · show page.id ∉ mapDelete s.pagesInProgress page.id
    exact not_mem_mapDelete _ _

/-- Witness for C5 at concrete inputs: re-entry while `"intro"` is in
flight is a no-op, and completion removes the id. -/
theorem C5_witness :
    pageIntro.id ∈ stateBusy.activeContentRequests
      ∧ generatePageContent envGenTwo stateBusy pageIntro = (stateBusy, [])
      ∧ pageIntro.id ∉ (finishPageContent stateBusy pageIntro
          (GenOutcome.ok "x")).activeContentRequests
      ∧ pageIntro.id ∉ (finishPageContent stateBusy pageIntro
          (GenOutcome.fail "y")).pagesInProgress :=
  ⟨by decide,
    ((C5_inflight_guard envGenTwo stateBusy pageIntro (GenOutcome.ok "x")).1
      (by decide)).1,
    (C5_inflight_guard envGenTwo stateBusy pageIntro
      (GenOutcome.ok "x")).2.1,
    (C5_inflight_guard envGenTwo stateBusy pageIntro
      (GenOutcome.fail "y")).2.2⟩

/-! ## Claim C6 — per-page failure containment -/

/-- Claim C6: in a cycle that generates (cache miss, structure ok), from a
cycle-fresh state over a structure with distinct page ids, a failing page
P does not abort the cycle: the cycle still ends with `error = none` and
`isLoading = false` (the `Ready` state), P's content is recorded as the
human-readable sentinel `"Error generating content: " ++ msg`, every
page's final content is a function of that page's own outcome alone
(`finalContent`), so no other page is affected, and every selected page —
including those after P — still gets its generation call. -/
theorem C6_failure_isolation (args : UseWikiProps) (env : Env)
    (s : HookState) (ws : WikiStructure) (P : WikiPage) (msg : String)
    (hc : env.cache = none) (hs : env.structureResult = .ok ws)
    (hact : s.activeContentRequests = [])
    (hnd : (ws.pages.map WikiPage.id).Nodup)
    (hP : P ∈ ws.pages)
    (hfail : env.pageResult P.id = .fail msg) :
    (loadCycle args env s).1.error = none
      ∧ (loadCycle args env s).1.isLoading = false
      ∧ (selected args P = true →
          getContent (loadCycle args env s).1.generatedPages P.id
            = some ("Error generating content: " ++ msg))
      ∧ (∀ q ∈ ws.pages,
          getContent (loadCycle args env s).1.generatedPages q.id
            = some (finalContent args env q))
      ∧ (∀ q ∈ ws.pages, selected args q = true →
          Call.pageGen q.id ∈ (loadCycle args env s).2) := by
  have hpre : (preGenState ws s).activeContentRequests = [] := hact
  have hpages := generateAllPages_pages args env ws (preGenState ws s)
    hpre hnd
  have hflds := generateAllPages_fields args env ws (preGenState ws s)
  unfold loadCycle
  rw [loadWiki_genPath args env s ws hc hs]
  refine ⟨?_, rfl, ?_, ?_, ?_⟩
  · show (generateAllPages args env ws (preGenState ws s)).1.error = none
    exact hflds.2.1
  · intro hsel
    show getContent
        (generateAllPages args env ws (preGenState ws s)).1.generatedPages
        P.id = _
    rw [hpages, getContent_map_nodup ws.pages (finalContent args env) P hP hnd,
      finalContent, if_pos hsel, hfail]
    rfl
  · intro q hq
    show getContent
        (generateAllPages args env ws (preGenState ws s)).1.generatedPages
        q.id = _
    rw [hpages]
    exact getContent_map_nodup ws.pages (finalContent args env) q hq hnd
  · intro q hq hsel
    have htr := generateAllPages_trace args env ws (preGenState ws s) hpre
    have hqf : q ∈ ws.pages.filter (selected args) :=
      List.mem_filter.mpr ⟨hq, hsel⟩
    refine List.mem_append.mpr (Or.inl (List.mem_append.mpr (Or.inl
      (List.mem_append.mpr (Or.inr ?_)))))
    rw [htr]
    exact pageGen_mem_pairTrace _ q hqf

/-- Witness for C6 at concrete inputs: `setup` fails, the cycle still ends
`Ready`, `setup` holds the error sentinel, `intro` holds its own
content. -/
theorem C6_witness :
    envFailSetup.pageResult pageSetup.id = GenOutcome.fail "backend boom"
      ∧ (loadCycle argsComprehensive envFailSetup initialState).1.error = none
      ∧ getContent
          (loadCycle argsComprehensive envFailSetup initialState).1.generatedPages
          pageSetup.id = some ("Error generating content: " ++ "backend boom")
      ∧ getContent
          (loadCycle argsComprehensive envFailSetup initialState).1.generatedPages
          pageIntro.id = some (finalContent argsComprehensive envFailSetup pageIntro) :=
  ⟨rfl,
    (C6_failure_isolation argsComprehensive envFailSetup initialState
      structTwo pageSetup "backend boom" rfl rfl rfl (by decide) (by decide)
      rfl).1,
    (C6_failure_isolation argsComprehensive envFailSetup initialState
      structTwo pageSetup "backend boom" rfl rfl rfl (by decide) (by decide)
      rfl).2.2.1 rfl,
    (C6_failure_isolation argsComprehensive envFailSetup initialState
      structTwo pageSetup "backend boom" rfl rfl rfl (by decide) (by decide)
      rfl).2.2.2.1 pageIntro (by decide)⟩

/-! ## Claim C7 — restricted-view scenario -/

/-- Claim C7: for the spec's scenario — structure
`[{id:"intro", importance:"high"}, {id:"setup", importance:"low"}]` with
comprehensive view disabled (the repository identity and language are
fixed per cycle and absorbed into the collaborator oracle) — the load
cycle issues a generation call only for `"intro"`; when the cycle
completes, `"setup"` still holds the initial `'Loading...'` placeholder
written by `generateAllPages` before scheduling, i.e. no content was ever
requested or generated for it, while `"intro"` holds its generated
content. -/
theorem C7_restricted_scenario :
    (loadCycle argsRestricted envGenTwo initialState).2.filter Call.isPageGen
        = [Call.pageGen "intro"]
      ∧ getContent
          (loadCycle argsRestricted envGenTwo initialState).1.generatedPages
          "setup" = some "Loading..."
      ∧ getContent
          (loadCycle argsRestricted envGenTwo initialState).1.generatedPages
          "intro" = some "Intro content"
      ∧ (loadCycle argsRestricted envGenTwo initialState).1.error = none
      ∧ (loadCycle argsRestricted envGenTwo initialState).1.isLoading
          = false := by
  decide

/-! ## Claim C8 — quote-aware excluded-path parsing -/

/-- Claim C8: the excluded-path parser accepts either form and splits
quote-aware.
(1) JSON-array acceptance: for every bracketed input, whatever string
list the runtime's `JSON.parse` yields is used directly.
(2) Every non-bracketed input takes the comma-separated quote-aware
branch.
(3) The universal no-split rule: for every double-quoted segment
(quote-free body `ms`, closing quote, well-formed remainder `ys`), the
split scanner accumulates the entire segment — any literal comma in `ms`
included — into the current token and creates no new token there, i.e. a
literal comma inside double quotes never splits the list.
(4) The spec's scenario: `"node_modules, \"my,dir\""` parses to
`["node_modules", "my,dir"]`. -/
theorem C8_excluded_parsing_rule :
    (∀ (jsonParse : String → Option (List String)) (s : String)
        (arr : List String),
        s.data.head? = some '[' → s.data.getLast? = some ']' →
        jsonParse s = some arr → parseExcludedList jsonParse s = arr)
      ∧ (∀ (jsonParse : String → Option (List String)) (s : String),
          ¬ (s.data.head? = some '[' ∧ s.data.getLast? = some ']') →
          parseExcludedList jsonParse s = parseExcludedCommaList s)
      ∧ (∀ (ms ys acc : List Char), '"' ∉ ms → countQuotes ys % 2 = 0 →
          splitQuoteAware ('"' :: (ms ++ '"' :: ys)) acc
            = splitQuoteAware ys ('"' :: ms.reverse ++ '"' :: acc))
      ∧ parseExcludedCommaList "node_modules, \"my,dir\""
          = ["node_modules", "my,dir"] := by
  refine ⟨?_, ?_, ?_, by decide⟩
  · intro jp s arr h1 h2 h3
    unfold parseExcludedList
    rw [if_pos ⟨h1, h2⟩, h3]
  · intro jp s h
    unfold parseExcludedList
    rw [if_neg h]
  · intro ms ys acc h he
    show splitQuoteAware ('"' :: (ms ++ '"' :: ys)) acc = _
    rw [splitQuoteAware,
      if_neg (by intro hand; exact absurd hand.1 (by decide))]
    rw [splitQuoteAware_quoted ms ys ('"' :: acc) h he, List.cons_append]

/-- Witness for C8 at concrete inputs: a bracketed input is handed to the
JSON oracle and its array is used; the scenario input is non-bracketed
and takes the comma branch; the quoted segment `"my,dir"` is scanned
without any split. -/
theorem C8_witness :
    "[\"a\", \"b\"]".data.head? = some '['
      ∧ "[\"a\", \"b\"]".data.getLast? = some ']'
      ∧ jsonOracle "[\"a\", \"b\"]" = some ["a", "b"]
      ∧ parseExcludedList jsonOracle "[\"a\", \"b\"]" = ["a", "b"]
      ∧ ¬ ("node_modules, \"my,dir\"".data.head? = some '['
          ∧ "node_modules, \"my,dir\"".data.getLast? = some ']')
      ∧ parseExcludedList jsonOracle "node_modules, \"my,dir\""
          = parseExcludedCommaList "node_modules, \"my,dir\""
      ∧ '"' ∉ "my,dir".data
      ∧ countQuotes [] % 2 = 0
      ∧ splitQuoteAware ('"' :: ("my,dir".data ++ '"' :: [])) []
          = splitQuoteAware [] ('"' :: "my,dir".data.reverse ++ '"' :: []) :=
  ⟨by decide, by decide, rfl,
    C8_excluded_parsing_rule.1 jsonOracle _ _ (by decide) (by decide) rfl,
    by decide,
    C8_excluded_parsing_rule.2.1 jsonOracle _ (by decide),
    by decide, by decide,
    C8_excluded_parsing_rule.2.2.1 "my,dir".data [] [] (by decide)
      (by decide)⟩

/-! ## Claim C9 — structure failure is terminal for the cycle -/

/-- Claim C9: when the cache misses and structure generation fails, the
thrown cause is stored as the cycle's terminal error (`loadWiki`'s catch,
lines 127-131), loading ends, no page generation is issued, and no save is
issued — the cycle ends in the `Error` state holding the cause. -/
theorem C9_structure_failure (args : UseWikiProps) (env : Env)
    (s : HookState) (cause : String)
    (hc : env.cache = none) (hs : env.structureResult = .error cause) :
    (loadCycle args env s).1.error = some cause
      ∧ (loadCycle args env s).1.isLoading = false
      ∧ (loadCycle args env s).2.filter Call.isPageGen = []
      ∧ (loadCycle args env s).2.countP Call.isSave = 0 := by
  unfold loadCycle
  rw [loadWiki_structFail args env s cause hc hs]
  rw [saveToCache_error _ cause rfl]
  exact ⟨rfl, rfl, rfl, rfl⟩

/-- Witness for C9 at concrete inputs. -/
theorem C9_witness :
    envStructFail.cache = none
      ∧ envStructFail.structureResult
          = Except.error "Failed to generate wiki structure: Service Unavailable"
      ∧ (loadCycle argsComprehensive envStructFail initialState).1.error
          = some "Failed to generate wiki structure: Service Unavailable"
      ∧ (loadCycle argsComprehensive envStructFail initialState).2.filter
          Call.isPageGen = [] :=
  ⟨rfl, rfl,
    (C9_structure_failure argsComprehensive envStructFail initialState
      "Failed to generate wiki structure: Service Unavailable" rfl rfl).1,
    (C9_structure_failure argsComprehensive envStructFail initialState
      "Failed to generate wiki structure: Service Unavailable" rfl rfl).2.2.1⟩

/-! ## Claim C10 — current-page selection on the two load paths -/

/-- Claim C10: on a cache hit over a non-empty structure the current page
id is preserved when already non-empty and set to the first page's id only
when empty (source lines 91-93); on the generation path the selection is
always reset to the new structure's first page (source lines 116-118). -/
theorem C10_page_selection (args : UseWikiProps) (env : Env)
    (s : HookState) :
    (∀ cached p rest, env.cache = some cached → cached.1.pages = p :: rest →
        (loadWiki args env s).1.currentPageId
          = (if s.currentPageId = "" then p.id else s.currentPageId))
      ∧ (∀ ws p rest, env.cache = none → env.structureResult = .ok ws →
          ws.pages = p :: rest →
          (loadWiki args env s).1.currentPageId = p.id) := by
  constructor
  · intro cached p rest hc hp
    rw [loadWiki_cacheHit args env s cached hc]
    show (match cached.1.pages with
          | [] => s.currentPageId
          | q :: _ =>
              if s.currentPageId = "" then q.id else s.currentPageId) = _
    rw [hp]
  · intro ws p rest hc hs hp
    rw [loadWiki_genPath args env s ws hc hs]
    show (generateAllPages args env ws (preGenState ws s)).1.currentPageId
        = p.id
    rw [(generateAllPages_fields args env ws (preGenState ws s)).2.2.2.1]
    show (match ws.pages with
          | [] => s.currentPageId
          | q :: _ => q.id) = p.id
    rw [hp]

/-- Witness for C10 at concrete inputs: cache hit with a page already
selected keeps it; cache hit with no selection picks the first page; the
generation path resets to the first page. -/
theorem C10_witness :
    (loadWiki argsComprehensive envWarm stateReady).1.currentPageId
        = "intro"
      ∧ (loadWiki argsComprehensive envWarm initialState).1.currentPageId
          = "intro"
      ∧ (loadWiki argsComprehensive envGenTwo stateReady).1.currentPageId
          = "intro" := by
  refine ⟨?_, ?_, ?_⟩
  · have h := (C10_page_selection argsComprehensive envWarm stateReady).1
      (structTwo, [("intro", "Cached intro"), ("setup", "Cached setup")])
      pageIntro [pageSetup] rfl rfl
    rw [if_neg (by decide)] at h
    exact h
  · have h := (C10_page_selection argsComprehensive envWarm initialState).1
      (structTwo, [("intro", "Cached intro"), ("setup", "Cached setup")])
      pageIntro [pageSetup] rfl rfl
    rw [if_pos (show initialState.currentPageId = "" from rfl)] at h
    exact h
  · exact (C10_page_selection argsComprehensive envGenTwo stateReady).2
      structTwo pageIntro [pageSetup] rfl rfl rfl

end DeepWiki
